import Mathlib

/-!
A shallow embedding of the core of the crypto-price-tracker repository:
`price_tracker.py`, `alert_manager.py`, `notification.py`,
`websocket_handler.py` and `main.py`.  Prices and wall-clock instants are
rationals, Python dicts are association lists observed through lookup,
asynchronous calls are sequenced in program order, and external
collaborators (historical-data API, SMTP transports, the websocket feed)
enter as explicit parameters describing their responses.
-/

/-- Python dict lookup; the most recent binding for a key comes first. -/
def alist_lookup {α : Type} : List (String × α) → String → Option α
  | [], _ => none
  | (k, v) :: rest, key => if k = key then some v else alist_lookup rest key

/-- Python dict assignment `d[k] = v`, observed only through `alist_lookup`:
the new binding shadows any earlier one. -/
def alist_insert {α : Type} (m : List (String × α)) (k : String) (v : α) :
    List (String × α) :=
  (k, v) :: m

/-- Python `abs` on a float. -/
def pyAbs (q : ℚ) : ℚ := if q < 0 then -q else q

/-- One entry of `price_changes[symbol]`: a dict of the shape
`{"price": p, "timestamp": t}` (price_tracker.py line 73). -/
structure PriceSample where
  price : ℚ
  timestamp : ℤ
deriving DecidableEq

/-- One kline of the historical-data response; only indices 2 (high) and
3 (low) are read by the tracker (price_tracker.py lines 93-94). -/
structure Kline where
  high : ℚ
  low : ℚ
deriving DecidableEq

/-- The mutable state of `PriceTracker` (price_tracker.py lines 42-46). -/
structure TrackerState where
  all_time_highs : List (String × ℚ)
  all_time_lows : List (String × ℚ)
  ninety_day_highs : List (String × ℚ)
  ninety_day_lows : List (String × ℚ)
  price_changes : List (String × List PriceSample)
deriving DecidableEq

/-- Python `max(float(kline[2]) for kline in klines)` over a possibly empty
list; `none` corresponds to the generator being empty. -/
def qListMax : List ℚ → Option ℚ
  | [] => none
  | x :: xs => some (xs.foldl max x)

/-- Python `min(float(kline[3]) for kline in klines)` over a possibly empty
list. -/
def qListMin : List ℚ → Option ℚ
  | [] => none
  | x :: xs => some (xs.foldl min x)

/-- `PriceTracker.update_price_change` (price_tracker.py lines 48-81):
keeps the samples whose age relative to `current_time` is at most
`timeframe`, appends the new sample, and once more than one sample is
retained returns `(current_price - initial_price) / initial_price * 100`
where `initial_price` is the price of the first retained sample. -/
def update_price_change (st : TrackerState) (symbol : String)
    (current_price : ℚ) (current_time : ℤ) (timeframe : ℤ) :
    TrackerState × Option ℚ :=
  let entries := (alist_lookup st.price_changes symbol).getD []
  let kept := entries.filter (fun e => current_time - e.timestamp ≤ timeframe)
  let updated := kept ++ [⟨current_price, current_time⟩]
  let st2 := { st with price_changes := alist_insert st.price_changes symbol updated }
  if updated.length > 1 then
    let initial_price := (updated.headD ⟨0, 0⟩).price
    (st2, some ((current_price - initial_price) / initial_price * 100))
  else
    (st2, none)

/-- `PriceTracker.update_all_time_high_low` (price_tracker.py lines 83-94).
The API response is the parameter `historical`: `none` models a falsy
response object, `some []` a response whose `"klines"` list is empty (also
falsy), and `some klines` with `klines` nonempty triggers the cache write. -/
def update_all_time_high_low (st : TrackerState) (symbol : String)
    (historical : Option (List Kline)) : TrackerState :=
  match historical with
  | none => st
  | some klines =>
    match qListMax (klines.map Kline.high), qListMin (klines.map Kline.low) with
    | some hi, some lo =>
      { st with
        all_time_highs := alist_insert st.all_time_highs symbol hi,
        all_time_lows := alist_insert st.all_time_lows symbol lo }
    | _, _ => st

/-- `PriceTracker.update_ninety_day_high_low` (price_tracker.py lines
96-109); identical shape over the bounded-window response. -/
def update_ninety_day_high_low (st : TrackerState) (symbol : String)
    (historical : Option (List Kline)) : TrackerState :=
  match historical with
  | none => st
  | some klines =>
    match qListMax (klines.map Kline.high), qListMin (klines.map Kline.low) with
    | some hi, some lo =>
      { st with
        ninety_day_highs := alist_insert st.ninety_day_highs symbol hi,
        ninety_day_lows := alist_insert st.ninety_day_lows symbol lo }
    | _, _ => st

/-- `PriceTracker.get_all_time_high` (price_tracker.py lines 111-123):
fetches and populates the caches only when the symbol is absent from
`all_time_highs`, then returns `all_time_highs.get(symbol)`. -/
def get_all_time_high (st : TrackerState) (symbol : String)
    (historical : Option (List Kline)) : TrackerState × Option ℚ :=
  let st2 :=
    if (alist_lookup st.all_time_highs symbol).isNone then
      update_all_time_high_low st symbol historical
    else st
  (st2, alist_lookup st2.all_time_highs symbol)

/-- `PriceTracker.get_all_time_low` (price_tracker.py lines 125-137). -/
def get_all_time_low (st : TrackerState) (symbol : String)
    (historical : Option (List Kline)) : TrackerState × Option ℚ :=
  let st2 :=
    if (alist_lookup st.all_time_lows symbol).isNone then
      update_all_time_high_low st symbol historical
    else st
  (st2, alist_lookup st2.all_time_lows symbol)

/-- The membership test on price_tracker.py line 135 deciding whether a call
to `get_all_time_low` performs a historical fetch. -/
def get_all_time_low_fetches (st : TrackerState) (symbol : String) : Bool :=
  (alist_lookup st.all_time_lows symbol).isNone

/-- `PriceTracker.get_ninety_day_high` (price_tracker.py lines 139-151). -/
def get_ninety_day_high (st : TrackerState) (symbol : String)
    (historical : Option (List Kline)) : TrackerState × Option ℚ :=
  let st2 :=
    if (alist_lookup st.ninety_day_highs symbol).isNone then
      update_ninety_day_high_low st symbol historical
    else st
  (st2, alist_lookup st2.ninety_day_highs symbol)

/-- `PriceTracker.get_ninety_day_low` (price_tracker.py lines 153-165). -/
def get_ninety_day_low (st : TrackerState) (symbol : String)
    (historical : Option (List Kline)) : TrackerState × Option ℚ :=
  let st2 :=
    if (alist_lookup st.ninety_day_lows symbol).isNone then
      update_ninety_day_high_low st symbol historical
    else st
  (st2, alist_lookup st2.ninety_day_lows symbol)

/-- `PriceEvent` (alert_manager.py lines 10-25). -/
structure PriceEvent where
  symbol : String
  price : ℚ
  time : String
  event_type : String
deriving DecidableEq

/-- The five digest buckets of `AlertManager` (alert_manager.py
lines 46-50). -/
structure AMState where
  ath_events : List PriceEvent
  atl_events : List PriceEvent
  ninety_day_ath_events : List PriceEvent
  ninety_day_atl_events : List PriceEvent
  price_movement_events : List PriceEvent
deriving DecidableEq

/-- `event_type_mapping.get(event.event_type)` (alert_manager.py lines
95-102): the bucket for a known event kind, `none` for an unknown one. -/
def event_type_bucket (st : AMState) : String → Option (List PriceEvent)
  | "ATH" => some st.ath_events
  | "ATL" => some st.atl_events
  | "90-Day ATH" => some st.ninety_day_ath_events
  | "90-Day ATL" => some st.ninety_day_atl_events
  | "Price Movement" => some st.price_movement_events
  | _ => none

/-- Writing back the bucket selected by `event_type_bucket`; in Python the
mapping aliases the instance attributes, so appending through it mutates
the corresponding field. -/
def set_bucket (st : AMState) (kind : String) (l : List PriceEvent) : AMState :=
  match kind with
  | "ATH" => { st with ath_events := l }
  | "ATL" => { st with atl_events := l }
  | "90-Day ATH" => { st with ninety_day_ath_events := l }
  | "90-Day ATL" => { st with ninety_day_atl_events := l }
  | "Price Movement" => { st with price_movement_events := l }
  | _ => st

/-- `AlertManager._record_event` (alert_manager.py lines 88-104).  Note the
Python guard `if event_list:` is truthiness on a list: it is `False` both
for `None` (unknown kind) and for an EMPTY bucket, so nothing is appended
to an empty bucket. -/
def record_event (st : AMState) (event : PriceEvent) : AMState :=
  match event_type_bucket st event.event_type with
  | none => st
  | some event_list =>
    if event_list.isEmpty then st
    else set_bucket st event.event_type (event_list ++ [event])

/-- `AlertManager._clear_recorded_events` (alert_manager.py lines 155-163). -/
def clear_recorded_events (_st : AMState) : AMState :=
  ⟨[], [], [], [], []⟩

/-- `AlertManager.send_daily_digest` (alert_manager.py lines 106-126).  The
notification transport outcome is the parameter `send_raises` (`true`
models `send_notification` raising); the `finally:` block clears the
buckets on both paths and the exception, if any, is re-raised — returned
here as the Boolean component. -/
def send_daily_digest (st : AMState) (send_raises : Bool) : AMState × Bool :=
  (clear_recorded_events st, send_raises)

/-- The configuration fields consumed by `EmailNotificationHandler`
(config.py / notification.py). -/
structure NotifConfig where
  NOTIFICATION_INTERVAL : ℚ
  MAX_RETRIES : ℕ

/-- `EmailNotificationHandler.last_notification_time` (notification.py
line 43): subject string to last-successful-send time. -/
structure NotifState where
  last_notification_time : List (String × ℚ)
deriving DecidableEq

/-- How a call to `send_notification` terminates. -/
inductive SendOutcome
  | rateLimited
  | sentPrimary
  | sentSecondary
  | raised
  | noAttempt
deriving DecidableEq

/-- Result of one `send_notification` call: the new handler state, how the
call terminated, and how many transport attempts were made on the primary
and the secondary server. -/
structure SendResult where
  state : NotifState
  outcome : SendOutcome
  primary_attempts : ℕ
  secondary_attempts : ℕ
deriving DecidableEq

/-- The rate-limit test of notification.py lines 66-73: skip when the
subject has a ledger entry and the elapsed time since it is under
`NOTIFICATION_INTERVAL`. -/
def rate_limit_hit (cfg : NotifConfig) (st : NotifState) (subject : String)
    (current_time : ℚ) : Bool :=
  match alist_lookup st.last_notification_time subject with
  | some t => decide (current_time - t < cfg.NOTIFICATION_INTERVAL)
  | none => false

/-- The retry loop of notification.py lines 77-91, recursing on the number
of remaining primary attempts.  `primary_ok i` tells whether `_send_email`
succeeds on attempt `i`; `secondary_ok` whether
`_send_via_secondary_server` succeeds.  On primary success the ledger is
updated to `current_time`; on the last failed attempt the secondary server
is tried once, and a secondary failure propagates (`raised`).  Note the
ledger update on line 81 is only reached on the primary path. -/
def send_attempt_loop (st : NotifState) (subject : String) (current_time : ℚ)
    (primary_ok : ℕ → Bool) (secondary_ok : Bool) :
    ℕ → ℕ → SendResult
  | _, 0 => ⟨st, .noAttempt, 0, 0⟩
  | attempt, remaining + 1 =>
    if primary_ok attempt then
      ⟨⟨alist_insert st.last_notification_time subject current_time⟩,
        .sentPrimary, 1, 0⟩
    else if remaining > 0 then
      let r := send_attempt_loop st subject current_time primary_ok secondary_ok
        (attempt + 1) remaining
      ⟨r.state, r.outcome, r.primary_attempts + 1, r.secondary_attempts⟩
    else if secondary_ok then ⟨st, .sentSecondary, 1, 1⟩
    else ⟨st, .raised, 1, 1⟩

/-- `EmailNotificationHandler.send_notification` (notification.py lines
55-91). -/
def send_notification (cfg : NotifConfig) (st : NotifState) (subject : String)
    (current_time : ℚ) (primary_ok : ℕ → Bool) (secondary_ok : Bool) :
    SendResult :=
  if rate_limit_hit cfg st subject current_time then ⟨st, .rateLimited, 0, 0⟩
  else send_attempt_loop st subject current_time primary_ok secondary_ok
    0 cfg.MAX_RETRIES

/-- `AlertManager.send_alert` (alert_manager.py lines 52-86): builds the
subject `f"{alert_type} Alert: {symbol}"`, delegates to
`send_notification`, and — only when no exception propagates — records the
event via `_record_event`. -/
def send_alert (cfg : NotifConfig) (nst : NotifState) (ast : AMState)
    (alert_type symbol : String) (price : ℚ) (now : ℚ) (time_str : String)
    (primary_ok : ℕ → Bool) (secondary_ok : Bool) :
    NotifState × AMState × SendResult :=
  let subject := alert_type ++ " Alert: " ++ symbol
  let r := send_notification cfg nst subject now primary_ok secondary_ok
  match r.outcome with
  | .raised => (r.state, ast, r)
  | _ => (r.state, record_event ast ⟨symbol, price, time_str, alert_type⟩, r)

/-- Python `(x or 0)` on an optional float: falsy means `None` or `0.0`. -/
def pyOrZero (x : Option ℚ) : ℚ :=
  match x with
  | some v => if v = 0 then 0 else v
  | none => 0

/-- Python `price < (x or float("inf"))`: with a falsy `x` the comparison
against infinity is always true. -/
def pyLtOrInf (price : ℚ) (x : Option ℚ) : Bool :=
  match x with
  | some v => if v = 0 then true else decide (price < v)
  | none => true

/-- The elif chain of `WebSocketHandler.check_and_notify`
(websocket_handler.py lines 190-197): at most one extremum alert kind
fires per tick, checked in the order ATH, ATL, 90-Day ATH, 90-Day ATL. -/
def classify_extremum (price : ℚ) (ath atl ndh ndl : Option ℚ) :
    Option String :=
  if price > pyOrZero ath then some "ATH"
  else if pyLtOrInf price atl then some "ATL"
  else if price > pyOrZero ndh then some "90-Day ATH"
  else if pyLtOrInf price ndl then some "90-Day ATL"
  else none

/-- The configuration field consumed by `check_and_notify`. -/
structure WsConfig where
  NOTIFICATION_THRESHOLD : ℚ

/-- Result of one `check_and_notify` call: the tracker state afterwards and
the `(alert_type, symbol, price)` triples passed to
`alert_manager.send_alert`, in call order. -/
structure CheckResult where
  tracker : TrackerState
  alerts : List (String × String × ℚ)
deriving DecidableEq

/-- The threshold-move check of `check_and_notify` (websocket_handler.py
lines 174-183): a Price Movement alert fires when a rolling change exists
and its absolute value reaches `NOTIFICATION_THRESHOLD`. -/
def movement_alert (cfg : WsConfig) (symbol : String) (price : ℚ)
    (pc : Option ℚ) : List (String × String × ℚ) :=
  match pc with
  | some price_change =>
    if pyAbs price_change ≥ cfg.NOTIFICATION_THRESHOLD then
      [("Price Movement", symbol, price)]
    else []
  | none => []

/-- The single `send_alert` call produced by the elif chain of
`check_and_notify` (websocket_handler.py lines 190-197). -/
def extremum_alert (symbol : String) (price : ℚ) (c : Option String) :
    List (String × String × ℚ) :=
  match c with
  | some kind => [(kind, symbol, price)]
  | none => []

/-- `WebSocketHandler.check_and_notify` (websocket_handler.py lines
159-197).  The historical-data responses that would be fetched on a cache
miss are the parameters `hist_full` (full history, used by both all-time
getters) and `hist_ninety` (bounded window, used by both 90-day getters).
The rolling-change call uses the literal default timeframe 3600 of
`update_price_change`. -/
def check_and_notify (cfg : WsConfig) (st : TrackerState) (symbol : String)
    (current_price : ℚ) (current_time : ℤ)
    (hist_full hist_ninety : Option (List Kline)) : CheckResult :=
  let r1 := update_price_change st symbol current_price current_time 3600
  let ma := movement_alert cfg symbol current_price r1.2
  let r2 := get_all_time_high r1.1 symbol hist_full
  let r3 := get_all_time_low r2.1 symbol hist_full
  let r4 := get_ninety_day_high r3.1 symbol hist_ninety
  let r5 := get_ninety_day_low r4.1 symbol hist_ninety
  let ea := extremum_alert symbol current_price
    (classify_extremum current_price r2.2 r3.2 r4.2 r5.2)
  ⟨r5.1, ma ++ ea⟩

/-- The value of the `"p"` field of one ticker entry: either something
`float` converts (a number or a numeric string), or a non-numeric string on
which `float` raises `ValueError`. -/
inductive PriceField
  | numLike (q : ℚ)
  | nonNumericStr (s : String)
deriving DecidableEq

/-- One element of a batch frame, read through `ticker_data.get`
(websocket_handler.py lines 144-146). -/
structure TickerEntry where
  s : Option String
  p : Option PriceField
deriving DecidableEq

/-- Python `float(ticker_data.get("p", 0))`: the missing-field default is
`0`, and `none` models `float` raising `ValueError`. -/
def py_float_of_field : Option PriceField → Option ℚ
  | none => some 0
  | some (.numLike q) => some q
  | some (.nonNumericStr _) => none

/-- A decoded JSON payload: either a list of ticker entries or data of an
unexpected shape (websocket_handler.py lines 142 and 156-157). -/
inductive JData
  | arr (entries : List TickerEntry)
  | nonList
deriving DecidableEq

/-- One inbound websocket message: a bytes ping, or a text frame whose JSON
decoding either succeeds (`some`) or raises `JSONDecodeError` (`none`). -/
inductive Frame
  | binaryPing
  | text (decoded : Option JData)
deriving DecidableEq

/-- One event of the receive loop `async for message in websocket`: a
delivered frame, or the iteration raising one of the handled exceptions. -/
inductive StreamEvent
  | frame (f : Frame)
  | connClosed
  | invalidStatus
  | otherExn
deriving DecidableEq

/-- How `handle_websocket` terminates: returning normally, or re-raising
`InvalidStatusCode` (websocket_handler.py lines 119-121). -/
inductive HandlerResult
  | normal
  | raisedInvalidStatus
deriving DecidableEq

/-- The per-entry body of `WebSocketHandler.process_message`
(websocket_handler.py lines 142-155): returns the `(symbol, price)` ticks
dispatched to `check_and_notify` and whether a `ValueError` from `float`
escaped (aborting the remaining entries). -/
def process_entries (tracked : List String) :
    List TickerEntry → List (String × ℚ) × Bool
  | [] => ([], false)
  | e :: rest =>
    match e.s with
    | some sym =>
      if tracked.contains sym then
        match py_float_of_field e.p with
        | none => ([], true)
        | some q =>
          if q > 0 then
            let r := process_entries tracked rest
            ((sym, q) :: r.1, r.2)
          else
            process_entries tracked rest
      else process_entries tracked rest
    | none => process_entries tracked rest

/-- `WebSocketHandler.process_message` (websocket_handler.py lines
131-157): a non-list payload is logged and skipped. -/
def process_message (tracked : List String) :
    JData → List (String × ℚ) × Bool
  | .nonList => ([], false)
  | .arr es => process_entries tracked es

/-- The receive loop of `WebSocketHandler.handle_websocket`
(websocket_handler.py lines 103-129).  Bytes frames are ponged; a
`JSONDecodeError` is caught inside the loop and the loop continues; a
`ValueError` escaping `process_message` is caught only by the outer
`except Exception`, which logs it and FALLS OUT of the loop;
`ConnectionClosed` and other exceptions are logged and the function
returns normally; `InvalidStatusCode` is re-raised. -/
def handle_websocket (tracked : List String) :
    List StreamEvent → List (String × ℚ) × HandlerResult
  | [] => ([], .normal)
  | .connClosed :: _ => ([], .normal)
  | .invalidStatus :: _ => ([], .raisedInvalidStatus)
  | .otherExn :: _ => ([], .normal)
  | .frame .binaryPing :: rest => handle_websocket tracked rest
  | .frame (.text none) :: rest => handle_websocket tracked rest
  | .frame (.text (some d)) :: rest =>
    let pr := process_message tracked d
    if pr.2 then (pr.1, .normal)
    else
      let r := handle_websocket tracked rest
      (pr.1 ++ r.1, r.2)

/-- The configuration fields consumed by `CryptoPriceTracker.run`
(main.py lines 68-74). -/
structure RunConfig where
  MAX_RETRIES : ℕ
  INITIAL_RETRY_DELAY : ℚ
  MAX_RETRY_DELAY : ℚ

/-- The outcome of one iteration of the `while` loop of
`CryptoPriceTracker.run` (main.py lines 49-76): either the connection was
established and `handle_websocket` ran to its result, or the iteration
raised one of the distinguished exceptions.  `invalidStatusErr` stands for
`InvalidStatusCode` from the handshake, which is neither `ConnectionClosed`
nor `CancelledError` and therefore lands in the generic
`except Exception` clause. -/
inductive ConnOutcome
  | established (r : HandlerResult)
  | connClosedErr
  | cancelledErr
  | invalidStatusErr
  | otherErr
deriving DecidableEq

/-- What one loop iteration does: continue with a new retry counter (and an
optional backoff sleep), or break out of the loop. -/
inductive StepResult
  | continued (retry_count : ℕ) (slept : Option ℚ)
  | stopped
deriving DecidableEq

/-- `min(INITIAL_RETRY_DELAY * (2**retry_count), MAX_RETRY_DELAY)`
(main.py lines 71-74). -/
def backoff_wait (cfg : RunConfig) (retry_count : ℕ) : ℚ :=
  min (cfg.INITIAL_RETRY_DELAY * 2 ^ retry_count) cfg.MAX_RETRY_DELAY

/-- The `except Exception` branch of `run` (main.py lines 63-76):
increment the retry counter, break once it exceeds `MAX_RETRIES`,
otherwise sleep the backoff and continue. -/
def generic_error_step (cfg : RunConfig) (retry_count : ℕ) : StepResult :=
  let rc := retry_count + 1
  if rc > cfg.MAX_RETRIES then .stopped
  else .continued rc (some (backoff_wait cfg rc))

/-- One iteration of the `while` loop of `CryptoPriceTracker.run` with
`should_exit` unset.  A normal `handle_websocket` return resets the retry
counter to 0; `ConnectionClosed` and `CancelledError` log and continue
without touching the counter; everything else — including
`InvalidStatusCode` — takes the generic error branch. -/
def run_step (cfg : RunConfig) (retry_count : ℕ) : ConnOutcome → StepResult
  | .established .normal => .continued 0 none
  | .established .raisedInvalidStatus => generic_error_step cfg retry_count
  | .connClosedErr => .continued retry_count none
  | .cancelledErr => .continued retry_count none
  | .invalidStatusErr => generic_error_step cfg retry_count
  | .otherErr => generic_error_step cfg retry_count

/-- The `while` loop of `CryptoPriceTracker.run` over a finite schedule of
connection outcomes: returns the backoff sleeps performed in order and
whether the loop broke out early (max retries exceeded). -/
def run_loop (cfg : RunConfig) : ℕ → List ConnOutcome → List ℚ × Bool
  | _, [] => ([], false)
  | rc, o :: rest =>
    match run_step cfg rc o with
    | .stopped => ([], true)
    | .continued rc2 slept =>
      let r := run_loop cfg rc2 rest
      (slept.toList ++ r.1, r.2)

/-- First `send_alert` call of the digest-recording scenario: a fresh
engine, an ATH alert for ETHUSDT at time 0, primary transport healthy. -/
def c2_first_call : NotifState × AMState × SendResult :=
  send_alert ⟨3600, 3⟩ ⟨[]⟩ ⟨[], [], [], [], []⟩ "ATH" "ETHUSDT" 100 0
    "2024-01-01T00:00:00" (fun _ => true) true

/-- Second ATH alert for ETHUSDT 10 seconds later, within the 3600s
minimum notification interval. -/
def c2_second_call : NotifState × AMState × SendResult :=
  send_alert ⟨3600, 3⟩ c2_first_call.1 c2_first_call.2.1 "ATH" "ETHUSDT" 101
    10 "2024-01-01T00:00:10" (fun _ => true) true

/-- A tracker state with all four extrema cached for BTCUSDT (all-time high
100) and an empty rolling window. -/
def c1_state : TrackerState :=
  ⟨[("BTCUSDT", 100)], [("BTCUSDT", 10)], [("BTCUSDT", 120)],
    [("BTCUSDT", 90)], []⟩

/-- First live tick at price 150 (above the cached all-time high 100), with
a movement threshold too high to co-fire. -/
def c1_first_tick : CheckResult :=
  check_and_notify ⟨1000000⟩ c1_state "BTCUSDT" 150 1000 none none

/-- Second live tick at the same price 150, 60 seconds later, on the state
left by the first tick. -/
def c1_second_tick : CheckResult :=
  check_and_notify ⟨1000000⟩ c1_first_tick.tracker "BTCUSDT" 150 1060 none none

/-- A two-frame schedule: first a batch whose tracked entry carries a
non-numeric price string, then a well-formed batch for the same symbol. -/
def c8_events : List StreamEvent :=
  [.frame (.text (some (.arr [⟨some "BTCUSDT", some (.nonNumericStr "abc")⟩]))),
   .frame (.text (some (.arr [⟨some "BTCUSDT", some (.numLike 5)⟩])))]

/-- A run configuration with MAX_RETRIES 5, initial delay 5s, cap 60s. -/
def c9_cfg : RunConfig := ⟨5, 5, 60⟩

theorem alist_lookup_insert_self {α : Type} (m : List (String × α))
    (k : String) (v : α) : alist_lookup (alist_insert m k v) k = some v := by
  simp [alist_insert, alist_lookup]

theorem alist_lookup_insert_ne {α : Type} (m : List (String × α))
    (k s : String) (v : α) (h : k ≠ s) :
    alist_lookup (alist_insert m k v) s = alist_lookup m s := by
  simp [alist_insert, alist_lookup, h]

/-- C3: `update_price_change` evicts the samples strictly older than the
timeframe relative to the new tick, appends the new sample, returns `none`
(never zero) while fewer than two samples are retained after eviction, and
otherwise returns exactly `(newest - oldest_retained) / oldest_retained *
100` where `oldest_retained` is the oldest sample still within the
timeframe. -/
theorem update_price_change_correct (st : TrackerState) (symbol : String)
    (p : ℚ) (t timeframe : ℤ) :
    (update_price_change st symbol p t timeframe).2 =
      (match ((alist_lookup st.price_changes symbol).getD []).filter
          (fun e => t - e.timestamp ≤ timeframe) with
       | [] => none
       | oldest :: _ => some ((p - oldest.price) / oldest.price * 100)) ∧
    alist_lookup (update_price_change st symbol p t timeframe).1.price_changes
        symbol =
      some ((((alist_lookup st.price_changes symbol).getD []).filter
        (fun e => t - e.timestamp ≤ timeframe)) ++ [⟨p, t⟩]) := by
  unfold update_price_change
  dsimp only
  generalize ((alist_lookup st.price_changes symbol).getD []).filter
      (fun e => t - e.timestamp ≤ timeframe) = kept
  cases kept with
  | nil => simp [alist_lookup_insert_self]
  | cons o rest =>
    have hlen : 1 <
        ((o :: rest) ++ [({ price := p, timestamp := t } : PriceSample)]).length := by
      simp only [List.length_append, List.length_cons]
      omega
    simp only [List.cons_append, List.headD_cons, gt_iff_lt, List.nil_append] at hlen ⊢
    simp [hlen, alist_lookup_insert_self]

/-- C6: after `send_daily_digest` returns or raises, all five event buckets
are empty — whether or not the underlying notification send raised — and
the exception, if any, propagates. -/
theorem send_daily_digest_clears (st : AMState) (send_raises : Bool) :
    (send_daily_digest st send_raises).1.ath_events = [] ∧
    (send_daily_digest st send_raises).1.atl_events = [] ∧
    (send_daily_digest st send_raises).1.ninety_day_ath_events = [] ∧
    (send_daily_digest st send_raises).1.ninety_day_atl_events = [] ∧
    (send_daily_digest st send_raises).1.price_movement_events = [] ∧
    (send_daily_digest st send_raises).2 = send_raises := by
  simp [send_daily_digest, clear_recorded_events]

/-- C10: on a symbol with no cached all-time extrema, one `get_all_time_high`
call whose historical fetch returns non-empty klines populates both the
all-time-high and all-time-low caches in that single fetch, returns the
high, makes a subsequent `get_all_time_low` a pure cache hit (no fetch,
state unchanged), and leaves every other symbol's extrema and all
90-day/rolling state unchanged. -/
theorem get_all_time_high_populates_both (st : TrackerState) (symbol : String)
    (klines : List Kline) (hi lo : ℚ)
    (h_missing : alist_lookup st.all_time_highs symbol = none)
    (hhi : qListMax (klines.map Kline.high) = some hi)
    (hlo : qListMin (klines.map Kline.low) = some lo) :
    alist_lookup (get_all_time_high st symbol (some klines)).1.all_time_highs
        symbol = some hi ∧
    (get_all_time_high st symbol (some klines)).2 = some hi ∧
    alist_lookup (get_all_time_high st symbol (some klines)).1.all_time_lows
        symbol = some lo ∧
    get_all_time_low_fetches (get_all_time_high st symbol (some klines)).1
        symbol = false ∧
    (∀ h2, get_all_time_low (get_all_time_high st symbol (some klines)).1
        symbol h2 =
      ((get_all_time_high st symbol (some klines)).1, some lo)) ∧
    (∀ s, s ≠ symbol →
      alist_lookup (get_all_time_high st symbol (some klines)).1.all_time_highs
          s = alist_lookup st.all_time_highs s ∧
      alist_lookup (get_all_time_high st symbol (some klines)).1.all_time_lows
          s = alist_lookup st.all_time_lows s) ∧
    (get_all_time_high st symbol (some klines)).1.ninety_day_highs =
      st.ninety_day_highs ∧
    (get_all_time_high st symbol (some klines)).1.ninety_day_lows =
      st.ninety_day_lows ∧
    (get_all_time_high st symbol (some klines)).1.price_changes =
      st.price_changes := by
  have hstep : (get_all_time_high st symbol (some klines)).1 =
      { st with all_time_highs := alist_insert st.all_time_highs symbol hi,
                all_time_lows := alist_insert st.all_time_lows symbol lo } := by
    simp [get_all_time_high, h_missing, update_all_time_high_low, hhi, hlo]
  have hval : (get_all_time_high st symbol (some klines)).2 = some hi := by
    simp [get_all_time_high, h_missing, update_all_time_high_low, hhi, hlo,
      alist_lookup_insert_self]
  refine ⟨?_, hval, ?_, ?_, ?_, ?_, ?_, ?_, ?_⟩
  · rw [hstep]; exact alist_lookup_insert_self _ _ _
  · rw [hstep]; exact alist_lookup_insert_self _ _ _
  · rw [hstep]
    simp [get_all_time_low_fetches, alist_lookup_insert_self]
  · intro h2
    rw [hstep]
    simp [get_all_time_low, alist_lookup_insert_self]
  · intro s hs
    rw [hstep]
    exact ⟨alist_lookup_insert_ne _ _ _ _ (Ne.symm hs),
      alist_lookup_insert_ne _ _ _ _ (Ne.symm hs)⟩
  · rw [hstep]
  · rw [hstep]
  · rw [hstep]

/-- C10 witness: a concrete fresh tracker and a two-kline history. -/
theorem get_all_time_high_populates_both_witness :
    alist_lookup (get_all_time_high ⟨[], [], [], [], []⟩ "BTCUSDT"
        (some [⟨10, 2⟩, ⟨7, 1⟩])).1.all_time_highs "BTCUSDT" = some 10 ∧
    alist_lookup (get_all_time_high ⟨[], [], [], [], []⟩ "BTCUSDT"
        (some [⟨10, 2⟩, ⟨7, 1⟩])).1.all_time_lows "BTCUSDT" = some 1 ∧
    get_all_time_low_fetches (get_all_time_high ⟨[], [], [], [], []⟩ "BTCUSDT"
        (some [⟨10, 2⟩, ⟨7, 1⟩])).1 "BTCUSDT" = false := by
  have h := get_all_time_high_populates_both ⟨[], [], [], [], []⟩ "BTCUSDT"
    [⟨10, 2⟩, ⟨7, 1⟩] 10 1 rfl (by decide) (by decide)
  exact ⟨h.1, h.2.2.1, h.2.2.2.1⟩

/-- C1 counterexample: with the all-time high for BTCUSDT cached at 100, a
live tick at 150 raises the ATH event but leaves the cached all-time high
at 100 (not updated in place), and a second tick at the very same price
150 raises the ATH event again — refuting both the in-place update and the
once-per-crossing parts of the claim. -/
theorem ath_not_updated_in_place_cex :
    c1_first_tick.alerts = [("ATH", "BTCUSDT", 150)] ∧
    alist_lookup c1_first_tick.tracker.all_time_highs "BTCUSDT" = some 100 ∧
    c1_second_tick.alerts = [("ATH", "BTCUSDT", 150)] := by
  refine ⟨?_, ?_, ?_⟩ <;>
    norm_num [c1_second_tick, c1_first_tick, c1_state, check_and_notify,
      update_price_change, get_all_time_high, get_all_time_low,
      get_ninety_day_high, get_ninety_day_low, alist_lookup, alist_insert,
      classify_extremum, pyOrZero, pyLtOrInf, pyAbs, movement_alert,
      extremum_alert]

/-- C2: the recorded-for-digest claim fails on the code.  On a fresh engine
the first ATH alert for ETHUSDT is delivered (primary send succeeds) and
the second, 10 seconds later, is rate-limited; both calls return without
raising, yet NEITHER event is appended to the ATH bucket, because
`_record_event` guards with `if event_list:` and an empty bucket is falsy —
the buckets can never leave the empty state. -/
theorem record_event_empty_bucket_eval :
    c2_first_call.2.2.outcome = .sentPrimary ∧
    c2_second_call.2.2.outcome = .rateLimited ∧
    c2_first_call.2.1.ath_events = [] ∧
    c2_second_call.2.1.ath_events = [] ∧
    c2_second_call.2.1 = ⟨[], [], [], [], []⟩ := by
  refine ⟨?_, ?_, ?_, ?_, ?_⟩ <;>
    norm_num [c2_second_call, c2_first_call, send_alert, send_notification,
      rate_limit_hit, send_attempt_loop, record_event, event_type_bucket,
      set_bucket, alist_lookup, alist_insert]

/-- C5: two notifications with the same subject within the minimum interval,
the first delivered successfully on its first primary attempt: exactly one
transport attempt is made in total, and the second call returns normally as
a silent rate-limit skip (no transport contact, no exception). -/
theorem rate_limited_second_call (cfg : NotifConfig) (st : NotifState)
    (subject : String) (t1 t2 : ℚ) (primary1 primary2 : ℕ → Bool)
    (sec1 sec2 : Bool)
    (hmax : 1 ≤ cfg.MAX_RETRIES)
    (hfirst : primary1 0 = true)
    (hfree : rate_limit_hit cfg st subject t1 = false)
    (hgap : t2 - t1 < cfg.NOTIFICATION_INTERVAL) :
    (send_notification cfg st subject t1 primary1 sec1).outcome = .sentPrimary ∧
    (send_notification cfg
      (send_notification cfg st subject t1 primary1 sec1).state
      subject t2 primary2 sec2).outcome = .rateLimited ∧
    (send_notification cfg st subject t1 primary1 sec1).primary_attempts +
      (send_notification cfg st subject t1 primary1 sec1).secondary_attempts +
      ((send_notification cfg
          (send_notification cfg st subject t1 primary1 sec1).state
          subject t2 primary2 sec2).primary_attempts +
        (send_notification cfg
          (send_notification cfg st subject t1 primary1 sec1).state
          subject t2 primary2 sec2).secondary_attempts) = 1 := by
  obtain ⟨m, hm⟩ : ∃ m, cfg.MAX_RETRIES = m + 1 :=
    ⟨cfg.MAX_RETRIES - 1, by omega⟩
  have h1 : send_notification cfg st subject t1 primary1 sec1 =
      ⟨⟨alist_insert st.last_notification_time subject t1⟩, .sentPrimary, 1, 0⟩ := by
    simp [send_notification, hfree, hm, send_attempt_loop, hfirst]
  have h2 : rate_limit_hit cfg
      ⟨alist_insert st.last_notification_time subject t1⟩ subject t2 = true := by
    simp [rate_limit_hit, alist_insert, alist_lookup, hgap]
  rw [h1]
  simp [send_notification, h2]

/-- C5 witness: interval 3600s, healthy transport, two calls 10s apart. -/
theorem rate_limited_second_call_witness :
    (send_notification ⟨3600, 3⟩ ⟨[]⟩ "ATH Alert: ETHUSDT" 0
      (fun _ => true) true).outcome = .sentPrimary ∧
    (send_notification ⟨3600, 3⟩
      (send_notification ⟨3600, 3⟩ ⟨[]⟩ "ATH Alert: ETHUSDT" 0
        (fun _ => true) true).state
      "ATH Alert: ETHUSDT" 10 (fun _ => true) true).outcome = .rateLimited ∧
    (send_notification ⟨3600, 3⟩ ⟨[]⟩ "ATH Alert: ETHUSDT" 0
      (fun _ => true) true).primary_attempts +
      (send_notification ⟨3600, 3⟩ ⟨[]⟩ "ATH Alert: ETHUSDT" 0
        (fun _ => true) true).secondary_attempts +
      ((send_notification ⟨3600, 3⟩
          (send_notification ⟨3600, 3⟩ ⟨[]⟩ "ATH Alert: ETHUSDT" 0
            (fun _ => true) true).state
          "ATH Alert: ETHUSDT" 10 (fun _ => true) true).primary_attempts +
        (send_notification ⟨3600, 3⟩
          (send_notification ⟨3600, 3⟩ ⟨[]⟩ "ATH Alert: ETHUSDT" 0
            (fun _ => true) true).state
          "ATH Alert: ETHUSDT" 10 (fun _ => true) true).secondary_attempts) = 1 :=
  rate_limited_second_call ⟨3600, 3⟩ ⟨[]⟩ "ATH Alert: ETHUSDT" 0 10
    (fun _ => true) (fun _ => true) true true (by decide) rfl rfl (by norm_num)

theorem send_attempt_loop_ledger (st : NotifState) (subject : String)
    (now : ℚ) (primary_ok : ℕ → Bool) (secondary_ok : Bool)
    (attempt remaining : ℕ) :
    ((send_attempt_loop st subject now primary_ok secondary_ok attempt
        remaining).outcome = .sentPrimary →
      alist_lookup (send_attempt_loop st subject now primary_ok secondary_ok
        attempt remaining).state.last_notification_time subject = some now) ∧
    ((send_attempt_loop st subject now primary_ok secondary_ok attempt
        remaining).outcome = .sentSecondary →
      (send_attempt_loop st subject now primary_ok secondary_ok attempt
        remaining).state = st) := by
  induction remaining generalizing attempt with
  | zero => simp [send_attempt_loop]
  | succ n ih =>
    by_cases hp : primary_ok attempt
    · simp [send_attempt_loop, hp, alist_lookup_insert_self]
    · by_cases hn : 0 < n
      · simpa [send_attempt_loop, hp, hn] using ih (attempt + 1)
      · have hn0 : n = 0 := by omega
        subst hn0
        by_cases hs : secondary_ok <;> simp [send_attempt_loop, hp, hs]

/-- C7 (amended): a delivery that succeeds on the primary transport updates
the rate-limit ledger entry for the subject to the current time, but a
delivery that succeeds only on the secondary (failover) server returns
normally WITHOUT updating the ledger — the handler state is unchanged. -/
theorem ledger_update_on_success (cfg : NotifConfig) (st : NotifState)
    (subject : String) (now : ℚ) (primary_ok : ℕ → Bool)
    (secondary_ok : Bool) :
    ((send_notification cfg st subject now primary_ok secondary_ok).outcome
        = .sentPrimary →
      alist_lookup (send_notification cfg st subject now primary_ok
        secondary_ok).state.last_notification_time subject = some now) ∧
    ((send_notification cfg st subject now primary_ok secondary_ok).outcome
        = .sentSecondary →
      (send_notification cfg st subject now primary_ok secondary_ok).state
        = st) := by
  unfold send_notification
  by_cases hr : rate_limit_hit cfg st subject now
  · simp [hr]
  · simpa [hr] using
      send_attempt_loop_ledger st subject now primary_ok secondary_ok 0
        cfg.MAX_RETRIES

/-- C7 witness: the primary send succeeds at time 5 and the ledger entry is
stamped with 5. -/
theorem ledger_update_on_success_witness :
    alist_lookup (send_notification ⟨3600, 1⟩ ⟨[]⟩ "ATH Alert: BTCUSDT" 5
      (fun _ => true) false).state.last_notification_time "ATH Alert: BTCUSDT"
      = some 5 :=
  (ledger_update_on_success ⟨3600, 1⟩ ⟨[]⟩ "ATH Alert: BTCUSDT" 5
    (fun _ => true) false).1 rfl

/-- C7 counterexample: the primary attempt fails, the single secondary
attempt succeeds — a successful delivery — yet the rate-limit ledger entry
for the subject is not written (the ledger update on notification.py line
81 sits on the primary path only). -/
theorem secondary_success_no_ledger_cex :
    (send_notification ⟨3600, 1⟩ ⟨[]⟩ "ATH Alert: BTCUSDT" 5 (fun _ => false)
      true).outcome = .sentSecondary ∧
    alist_lookup (send_notification ⟨3600, 1⟩ ⟨[]⟩ "ATH Alert: BTCUSDT" 5
      (fun _ => false) true).state.last_notification_time "ATH Alert: BTCUSDT"
      = none := by
  constructor <;> rfl

theorem update_price_change_preserves_extrema (st : TrackerState)
    (symbol : String) (p : ℚ) (t tf : ℤ) :
    (update_price_change st symbol p t tf).1.all_time_highs = st.all_time_highs ∧
    (update_price_change st symbol p t tf).1.all_time_lows = st.all_time_lows ∧
    (update_price_change st symbol p t tf).1.ninety_day_highs = st.ninety_day_highs ∧
    (update_price_change st symbol p t tf).1.ninety_day_lows = st.ninety_day_lows := by
  unfold update_price_change
  dsimp only
  split <;> exact ⟨rfl, rfl, rfl, rfl⟩

theorem update_ninety_preserves_all_time (st : TrackerState) (symbol : String)
    (hist : Option (List Kline)) :
    (update_ninety_day_high_low st symbol hist).all_time_highs = st.all_time_highs ∧
    (update_ninety_day_high_low st symbol hist).all_time_lows = st.all_time_lows := by
  unfold update_ninety_day_high_low
  cases hist with
  | none => exact ⟨rfl, rfl⟩
  | some klines =>
    dsimp only
    split
    · exact ⟨rfl, rfl⟩
    · exact ⟨rfl, rfl⟩

theorem get_ninety_day_high_preserves_all_time (st : TrackerState)
    (symbol : String) (hist : Option (List Kline)) :
    (get_ninety_day_high st symbol hist).1.all_time_highs = st.all_time_highs ∧
    (get_ninety_day_high st symbol hist).1.all_time_lows = st.all_time_lows := by
  unfold get_ninety_day_high
  dsimp only
  split
  · exact update_ninety_preserves_all_time st symbol hist
  · exact ⟨rfl, rfl⟩

theorem get_ninety_day_low_preserves_all_time (st : TrackerState)
    (symbol : String) (hist : Option (List Kline)) :
    (get_ninety_day_low st symbol hist).1.all_time_highs = st.all_time_highs ∧
    (get_ninety_day_low st symbol hist).1.all_time_lows = st.all_time_lows := by
  unfold get_ninety_day_low
  dsimp only
  split
  · exact update_ninety_preserves_all_time st symbol hist
  · exact ⟨rfl, rfl⟩

theorem get_all_time_high_cached (st : TrackerState) (symbol : String)
    (hist : Option (List Kline)) (v : ℚ)
    (hv : alist_lookup st.all_time_highs symbol = some v) :
    get_all_time_high st symbol hist = (st, some v) := by
  simp [get_all_time_high, hv]

theorem get_all_time_low_cached (st : TrackerState) (symbol : String)
    (hist : Option (List Kline)) (v : ℚ)
    (hv : alist_lookup st.all_time_lows symbol = some v) :
    get_all_time_low st symbol hist = (st, some v) := by
  simp [get_all_time_low, hv]

theorem pyOrZero_some (h : ℚ) : pyOrZero (some h) = h := by
  unfold pyOrZero
  split <;> simp_all

theorem classify_ath_iff (price h : ℚ) (atl ndh ndl : Option ℚ) :
    (classify_extremum price (some h) atl ndh ndl = some "ATH") ↔ h < price := by
  unfold classify_extremum
  rw [pyOrZero_some]
  split_ifs with h1 h2 h3 h4 <;> simp_all

theorem movement_alert_no_ath (cfg : WsConfig) (symbol : String)
    (price price2 : ℚ) (pc : Option ℚ) :
    ("ATH", symbol, price2) ∉ movement_alert cfg symbol price pc := by
  unfold movement_alert
  cases pc with
  | none => simp
  | some price_change => split <;> simp

theorem movement_alert_kind (cfg : WsConfig) (symbol : String) (price : ℚ)
    (pc : Option ℚ) :
    ∀ a ∈ movement_alert cfg symbol price pc, a.1 = "Price Movement" := by
  unfold movement_alert
  cases pc with
  | none => simp
  | some price_change => split <;> simp

theorem ath_mem_extremum_alert (symbol : String) (price : ℚ)
    (c : Option String) :
    ("ATH", symbol, price) ∈ extremum_alert symbol price c ↔ c = some "ATH" := by
  unfold extremum_alert
  cases c with
  | none => simp
  | some kind => simp [eq_comm]

theorem check_tick_cached_core (cfg : WsConfig) (st : TrackerState)
    (symbol : String) (price : ℚ) (t : ℤ) (hf hn : Option (List Kline))
    (h l : ℚ)
    (hath : alist_lookup st.all_time_highs symbol = some h)
    (hatl : alist_lookup st.all_time_lows symbol = some l) :
    (check_and_notify cfg st symbol price t hf hn).tracker.all_time_highs
      = st.all_time_highs ∧
    (check_and_notify cfg st symbol price t hf hn).tracker.all_time_lows
      = st.all_time_lows ∧
    (("ATH", symbol, price) ∈ (check_and_notify cfg st symbol price t hf hn).alerts
      ↔ h < price) := by
  have hpres := update_price_change_preserves_extrema st symbol price t 3600
  have hath1 : alist_lookup
      (update_price_change st symbol price t 3600).1.all_time_highs symbol
      = some h := by rw [hpres.1]; exact hath
  have hatl1 : alist_lookup
      (update_price_change st symbol price t 3600).1.all_time_lows symbol
      = some l := by rw [hpres.2.1]; exact hatl
  have hg2 := get_all_time_high_cached
    (update_price_change st symbol price t 3600).1 symbol hf h hath1
  have hg3 := get_all_time_low_cached
    (update_price_change st symbol price t 3600).1 symbol hf l hatl1
  unfold check_and_notify
  dsimp only
  rw [hg2]
  dsimp only
  rw [hg3]
  dsimp only
  refine ⟨?_, ?_, ?_⟩
  · rw [(get_ninety_day_low_preserves_all_time _ _ _).1,
      (get_ninety_day_high_preserves_all_time _ _ _).1, hpres.1]
  · rw [(get_ninety_day_low_preserves_all_time _ _ _).2,
      (get_ninety_day_high_preserves_all_time _ _ _).2, hpres.2.1]
  · simp [List.mem_append, movement_alert_no_ath, ath_mem_extremum_alert,
      classify_ath_iff]

/-- C1 (amended): with the all-time high and low cached for a symbol, a
live tick never mutates the cached all-time maps — in particular a price
at or below the cached high leaves it unchanged — and a tick strictly
above the cached high raises an ATH event; but since the cache is NOT
updated in place, the event fires again on every further tick above the
stale cached high (a second tick at the same price raises again), the
deduplication being left to the dispatcher's subject rate limit. -/
theorem ath_cached_tick_behavior (cfg : WsConfig) (st : TrackerState)
    (symbol : String) (price : ℚ) (t t2 : ℤ)
    (hf hn hf2 hn2 : Option (List Kline)) (h l : ℚ)
    (hath : alist_lookup st.all_time_highs symbol = some h)
    (hatl : alist_lookup st.all_time_lows symbol = some l) :
    (check_and_notify cfg st symbol price t hf hn).tracker.all_time_highs
      = st.all_time_highs ∧
    (check_and_notify cfg st symbol price t hf hn).tracker.all_time_lows
      = st.all_time_lows ∧
    (("ATH", symbol, price) ∈ (check_and_notify cfg st symbol price t hf hn).alerts
      ↔ h < price) ∧
    (h < price →
      ("ATH", symbol, price) ∈
        (check_and_notify cfg
          (check_and_notify cfg st symbol price t hf hn).tracker
          symbol price t2 hf2 hn2).alerts) := by
  obtain ⟨e1, e2, e3⟩ :=
    check_tick_cached_core cfg st symbol price t hf hn h l hath hatl
  refine ⟨e1, e2, e3, ?_⟩
  intro hlt
  have hath2 : alist_lookup
      (check_and_notify cfg st symbol price t hf hn).tracker.all_time_highs
      symbol = some h := by rw [e1]; exact hath
  have hatl2 : alist_lookup
      (check_and_notify cfg st symbol price t hf hn).tracker.all_time_lows
      symbol = some l := by rw [e2]; exact hatl
  exact (check_tick_cached_core cfg _ symbol price t2 hf2 hn2 h l
    hath2 hatl2).2.2.mpr hlt

/-- C1 witness: cached all-time high 100 for BTCUSDT, tick at 150. -/
theorem ath_cached_tick_behavior_witness :
    ("ATH", "BTCUSDT", (150 : ℚ)) ∈ c1_first_tick.alerts ∧
    c1_first_tick.tracker.all_time_highs = c1_state.all_time_highs := by
  have hth := ath_cached_tick_behavior ⟨1000000⟩ c1_state "BTCUSDT" 150 1000
    1060 none none none none 100 10 rfl rfl
  exact ⟨hth.2.2.1.mpr (by norm_num), hth.1⟩

theorem update_all_time_empty (st : TrackerState) (symbol : String) :
    update_all_time_high_low st symbol (some []) = st := by
  simp [update_all_time_high_low, qListMax, qListMin]

theorem get_all_time_high_missing_empty (st : TrackerState) (symbol : String)
    (h : alist_lookup st.all_time_highs symbol = none) :
    get_all_time_high st symbol (some []) = (st, none) := by
  simp [get_all_time_high, h, update_all_time_empty]

theorem get_all_time_low_missing_empty (st : TrackerState) (symbol : String)
    (h : alist_lookup st.all_time_lows symbol = none) :
    get_all_time_low st symbol (some []) = (st, none) := by
  simp [get_all_time_low, h, update_all_time_empty]

/-- C4 (amended): on a tick for a symbol whose extrema are all unknown
(the historical collaborator returned empty history), the coordinator does
NOT treat the unknown extrema as unexceedable: because the unknown
all-time high defaults to 0 via `(ath or 0)`, any positive price fires an
ATH alert — and, the four checks being an elif chain, exactly that
extremum alert and possibly an independent Price Movement alert. -/
theorem unknown_extrema_raises_ath (cfg : WsConfig) (st : TrackerState)
    (symbol : String) (price : ℚ) (t : ℤ)
    (h1 : alist_lookup st.all_time_highs symbol = none)
    (h2 : alist_lookup st.all_time_lows symbol = none)
    (h3 : alist_lookup st.ninety_day_highs symbol = none)
    (h4 : alist_lookup st.ninety_day_lows symbol = none)
    (hp : 0 < price) :
    ("ATH", symbol, price) ∈
      (check_and_notify cfg st symbol price t (some []) (some [])).alerts ∧
    (∀ a ∈ (check_and_notify cfg st symbol price t (some []) (some [])).alerts,
      a.1 = "ATH" ∨ a.1 = "Price Movement") := by
  have hpres := update_price_change_preserves_extrema st symbol price t 3600
  have h1R : alist_lookup
      (update_price_change st symbol price t 3600).1.all_time_highs symbol
      = none := by rw [hpres.1]; exact h1
  have h2R : alist_lookup
      (update_price_change st symbol price t 3600).1.all_time_lows symbol
      = none := by rw [hpres.2.1]; exact h2
  have hg2 := get_all_time_high_missing_empty
    (update_price_change st symbol price t 3600).1 symbol h1R
  have hg3 := get_all_time_low_missing_empty
    (update_price_change st symbol price t 3600).1 symbol h2R
  unfold check_and_notify
  dsimp only
  rw [hg2]
  dsimp only
  rw [hg3]
  dsimp only
  generalize (get_ninety_day_low
    (get_ninety_day_high (update_price_change st symbol price t 3600).1
      symbol (some [])).1 symbol (some [])).2 = ndl
  generalize (get_ninety_day_high (update_price_change st symbol price t 3600).1
    symbol (some [])).2 = ndh
  have hcls : classify_extremum price none none ndh ndl = some "ATH" := by
    unfold classify_extremum pyOrZero
    simp [hp]
  rw [hcls]
  constructor
  · simp [extremum_alert]
  · intro a ha
    rw [List.mem_append] at ha
    rcases ha with hma | hea
    · exact Or.inr (movement_alert_kind cfg symbol price _ a hma)
    · left
      simp [extremum_alert] at hea
      subst hea
      rfl

/-- C4 witness: a fresh tracker, empty history, tick at price 5. -/
theorem unknown_extrema_raises_ath_witness :
    ("ATH", "FOOUSDT", (5 : ℚ)) ∈
      (check_and_notify ⟨100⟩ ⟨[], [], [], [], []⟩ "FOOUSDT" 5 0 (some [])
        (some [])).alerts :=
  (unknown_extrema_raises_ath ⟨100⟩ ⟨[], [], [], [], []⟩ "FOOUSDT" 5 0
    rfl rfl rfl rfl (by norm_num)).1

/-- C4 counterexample: with no cached extrema and an empty-history
collaborator, the tick at price 5 raises an ATH event — the claim that no
extremum event is raised for such a tick is false. -/
theorem unknown_extrema_cex :
    (check_and_notify ⟨100⟩ ⟨[], [], [], [], []⟩ "NEWUSDT" 5 0 (some [])
      (some [])).alerts = [("ATH", "NEWUSDT", 5)] := by
  norm_num [check_and_notify, update_price_change, get_all_time_high,
    get_all_time_low, get_ninety_day_high, get_ninety_day_low,
    update_all_time_high_low, update_ninety_day_high_low, qListMax, qListMin,
    alist_lookup, alist_insert, classify_extremum, pyOrZero, pyLtOrInf, pyAbs,
    movement_alert, extremum_alert]

/-- C8 (amended): an undecodable-JSON frame and a non-list payload are
logged and skipped with the receive loop continuing; but an entry carrying
a non-numeric price string for a tracked symbol raises a `ValueError` that
the per-frame handler does not catch — the outer handler logs it and the
function returns normally, so nothing propagates out of `handle_websocket`,
but the receive loop stops and subsequent frames are not processed. -/
theorem malformed_frame_handling :
    (∀ (tracked : List String) (rest : List StreamEvent),
      handle_websocket tracked (.frame (.text none) :: rest)
        = handle_websocket tracked rest) ∧
    (∀ (tracked : List String) (rest : List StreamEvent),
      handle_websocket tracked (.frame (.text (some .nonList)) :: rest)
        = handle_websocket tracked rest) ∧
    (∀ (tracked : List String) (sym fstr : String) (rest : List StreamEvent),
      tracked.contains sym = true →
      handle_websocket tracked
        (.frame (.text (some (.arr [⟨some sym, some (.nonNumericStr fstr)⟩])))
          :: rest) = ([], .normal)) := by
  refine ⟨fun tracked rest => rfl, ?_, ?_⟩
  · intro tracked rest
    simp [handle_websocket, process_message]
  · intro tracked sym fstr rest hmem
    have hmem2 : sym ∈ tracked := by simpa using hmem
    simp [handle_websocket, process_message, process_entries, hmem2,
      py_float_of_field]

/-- C8 witness: a bad-JSON frame is skipped; a tracked entry with the
non-numeric price string "abc" ends the loop with a normal return. -/
theorem malformed_frame_handling_witness :
    handle_websocket ["BTCUSDT"] [.frame (.text none)]
      = handle_websocket ["BTCUSDT"] [] ∧
    handle_websocket ["BTCUSDT"]
      [.frame (.text (some (.arr [⟨some "BTCUSDT",
        some (.nonNumericStr "abc")⟩])))] = ([], .normal) :=
  ⟨malformed_frame_handling.1 ["BTCUSDT"] [],
    malformed_frame_handling.2.2 ["BTCUSDT"] "BTCUSDT" "abc" [] (by decide)⟩

/-- C8 counterexample: after a frame whose tracked entry carries the
non-numeric price string "abc", the following well-formed frame — which on
its own would dispatch a tick at price 5 — is never processed: the receive
loop does not continue past the malformed entry. -/
theorem nonnumeric_price_stops_loop_cex :
    handle_websocket ["BTCUSDT"] c8_events = ([], .normal) ∧
    handle_websocket ["BTCUSDT"]
      [.frame (.text (some (.arr [⟨some "BTCUSDT", some (.numLike 5)⟩])))]
      = ([("BTCUSDT", 5)], .normal) := by
  constructor <;> rfl

/-- C9 (amended): `handle_websocket` re-raises `InvalidStatusCode`, but
`run` catches it in its generic `except Exception` clause like any other
connection error: the retry counter is incremented and the loop sleeps the
exponential backoff and retries; it terminates only once the counter
exceeds `MAX_RETRIES` — the handshake rejection is not immediately fatal. -/
theorem invalid_status_retry_behavior (cfg : RunConfig) (rc : ℕ)
    (tracked : List String) (rest : List StreamEvent) :
    handle_websocket tracked (.invalidStatus :: rest)
      = ([], .raisedInvalidStatus) ∧
    (rc + 1 ≤ cfg.MAX_RETRIES →
      run_step cfg rc .invalidStatusErr =
        .continued (rc + 1) (some (backoff_wait cfg (rc + 1)))) ∧
    (cfg.MAX_RETRIES < rc + 1 → run_step cfg rc .invalidStatusErr = .stopped) := by
  refine ⟨rfl, ?_, ?_⟩
  · intro hle
    have hno : ¬ (rc + 1 > cfg.MAX_RETRIES) := by omega
    simp [run_step, generic_error_step, hno]
  · intro hgt
    simp [run_step, generic_error_step, hgt]

/-- C9 witness: with max retries 5, a handshake rejection at retry count 0
makes the loop continue with counter 1 and the backoff sleep. -/
theorem invalid_status_retry_behavior_witness :
    run_step c9_cfg 0 .invalidStatusErr
      = .continued 1 (some (backoff_wait c9_cfg 1)) :=
  (invalid_status_retry_behavior c9_cfg 0 [] []).2.1 (by decide)

/-- C9 counterexample: with MAX_RETRIES 5, initial delay 5s and cap 60s, a
run schedule beginning with an invalid-status handshake rejection does NOT
terminate: the loop sleeps 10 seconds (the backoff for retry 1) and goes on
to the next, successful connection. -/
theorem invalid_status_retry_cex :
    run_loop c9_cfg 0 [.invalidStatusErr, .established .normal]
      = ([10], false) := by
  norm_num [run_loop, run_step, generic_error_step, backoff_wait, c9_cfg]
